import Mathlib

set_option autoImplicit false

/-!
Shallow embedding of the authentication and invitation core of the
load-json-data repository, together with theorems checking the
natural-language specification against it.

Part A embeds `src/services/authService.js` (client-side mock auth
service: OTP request/verification with permanent lockout).
Part B embeds the OTP/invite backend server (`unnamed/part_002`, an
Express application: invite validation, registration, invite-request
workflow, admin approve/deny).
Part C embeds `src/utils/secureStorage.js` (encrypted client storage).

JavaScript in-memory maps (plain objects / `Map`) are modelled as
functions `String → Option _`; `Date.now()`-style timestamps are `Nat`
milliseconds; the SHA-256 based `hashOTP` and the AES-GCM encrypt and
decrypt primitives are external Web Crypto calls and are passed as
function parameters.
-/

namespace LoadJsonData

/-- Decidable equality for Except, so that concrete runs of the
embedded operations can be checked by `decide`. -/
instance {ε α : Type} [DecidableEq ε] [DecidableEq α] : DecidableEq (Except ε α) :=
  fun x y =>
    match x, y with
    | .error a, .error b =>
      if h : a = b then .isTrue (by rw [h]) else .isFalse (fun hh => h (by injection hh))
    | .ok a, .ok b =>
      if h : a = b then .isTrue (by rw [h]) else .isFalse (fun hh => h (by injection hh))
    | .error _, .ok _ => .isFalse (fun hh => Except.noConfusion hh)
    | .ok _, .error _ => .isFalse (fun hh => Except.noConfusion hh)

/-! ## Part A: authService.js -/

/-- User record from the MOCK_USERS database in authService.js.
Dates (`invitedAt`, `lastLogin`) are timestamps in milliseconds. -/
structure User where
  id : String
  email : String
  name : String
  role : String
  invitedBy : String
  invitedAt : Nat
  lastLogin : Nat
deriving Repr, DecidableEq

/-- One entry of MOCK_OTPS: `{ otpHash, expires, attempts, salt }`. -/
structure OTPData where
  otpHash : String
  expires : Nat
  attempts : Nat
  salt : String
deriving Repr, DecidableEq

/-- The mutable module-level state of authService.js:
MOCK_USERS (array), MOCK_OTPS (object keyed by email),
permanentlyLockedAccounts (Set of emails). -/
structure AuthState where
  users : List User
  otps : String → Option OTPData
  locked : String → Bool

/-- OTP_EXPIRY_MINUTES in authService.js. -/
def OTP_EXPIRY_MINUTES : Nat := 10

/-- MAX_OTP_ATTEMPTS in authService.js. -/
def MAX_OTP_ATTEMPTS : Nat := 3

/-- The distinct rejection reasons of verifyOTP in authService.js, one
constructor per `reject(new Error(...))` site. -/
inductive VerifyErr where
  | userNotFound
  | otpNotFound
  | otpExpired
  | accountPermanentlyLocked
  | invalidOTP (remaining : Nat)
deriving Repr, DecidableEq

/-- The distinct rejection reasons of requestOTP in authService.js.
`sendFailed` covers the catch-all "Failed to send OTP" path (backend
fetch not ok, or no OTP field in the backend response). -/
inductive RequestErr where
  | accountPermanentlyLocked
  | userNotFound
  | sendFailed
deriving Repr, DecidableEq

/-- checkAccountSecurity from authService.js: `allowed` flag plus
optional reason. -/
def checkAccountSecurity (st : AuthState) (email : String) : Bool × Option String :=
  if st.locked email then (false, some "ACCOUNT_PERMANENTLY_LOCKED")
  else (true, none)

/-- verifyOTPHash from authService.js. The source hashes the candidate
with the salt and compares against the stored hash with a constant-time
loop (equal lengths and zero XOR of all code units), which holds exactly
when the two hash strings are equal. `hashOTP` (SHA-256 over otp ++ salt
via Web Crypto) is passed as a parameter. -/
def verifyOTPHash (hashOTP : String → String → String) (otp salt hash : String) : Bool :=
  hashOTP otp salt == hash

/-- Updates the first list element satisfying `p` (JS mutates the object
found by `Array.prototype.find` in place). -/
def updateFirst (p : User → Bool) (f : User → User) : List User → List User
  | [] => []
  | u :: us => if p u then f u :: us else u :: updateFirst p f us

/-- verifyOTP from authService.js as a state transformer. `now` is the
current time in milliseconds. Branches in source order: user lookup,
OTP record lookup, expiry check (`new Date() > otpData.expires`),
attempt-limit check, hash comparison; on mismatch the attempt counter
is incremented and, when no attempts remain, the email is permanently
locked and the record deleted; on match the record is deleted and
`lastLogin` stamped. -/
def verifyOTP (hashOTP : String → String → String) (st : AuthState) (now : Nat)
    (email otp : String) : Except VerifyErr User × AuthState :=
  match st.users.find? (fun u => u.email == email) with
  | none => (.error .userNotFound, st)
  | some user =>
    match st.otps email with
    | none => (.error .otpNotFound, st)
    | some otpData =>
      if otpData.expires < now then
        (.error .otpExpired,
         { st with otps := fun e => if e == email then none else st.otps e })
      else if MAX_OTP_ATTEMPTS ≤ otpData.attempts then
        (.error .accountPermanentlyLocked,
         { st with
             otps := fun e => if e == email then none else st.otps e
             locked := fun e => e == email || st.locked e })
      else if verifyOTPHash hashOTP otp otpData.salt otpData.otpHash then
        (.ok { user with lastLogin := now },
         { st with
             otps := fun e => if e == email then none else st.otps e
             users := updateFirst (fun u => u.email == email)
               (fun u => { u with lastLogin := now }) st.users })
      else
        let attempts' := otpData.attempts + 1
        let remaining := MAX_OTP_ATTEMPTS - attempts'
        if remaining = 0 then
          (.error .accountPermanentlyLocked,
           { st with
               otps := fun e => if e == email then none else st.otps e
               locked := fun e => e == email || st.locked e })
        else
          (.error (.invalidOTP remaining),
           { st with
               otps := fun e =>
                 if e == email then some { otpData with attempts := attempts' }
                 else st.otps e })

/-- The JSON body the OTP backend returns to requestOTP's fetch:
`{ success, otp?, isDemoMode }` plus the HTTP ok flag. -/
structure BackendOtpResp where
  ok : Bool
  otp : Option String
  isDemoMode : Bool
deriving Repr, DecidableEq

/-- requestOTP from authService.js as a state transformer. The backend
fetch result and the random salt are parameters. Order as in source:
checkAccountSecurity, MOCK_USERS lookup, backend call; when the backend
returns an OTP it is hashed and stored with a fresh 10-minute expiry,
carrying over the attempt counter of any existing record for the email;
a failed fetch or a missing OTP field rejects through the catch block. -/
def requestOTP (hashOTP : String → String → String) (st : AuthState) (now : Nat)
    (email : String) (resp : BackendOtpResp) (salt : String) :
    Except RequestErr Unit × AuthState :=
  if (checkAccountSecurity st email).1 = false then
    (.error .accountPermanentlyLocked, st)
  else
    match st.users.find? (fun u => u.email == email) with
    | none => (.error .userNotFound, st)
    | some _ =>
      if resp.ok = false then (.error .sendFailed, st)
      else
        match resp.otp with
        | none => (.error .sendFailed, st)
        | some otp =>
          let existingAttempts :=
            match st.otps email with
            | some d => d.attempts
            | none => 0
          (.ok (),
           { st with
               otps := fun e =>
                 if e == email then
                   some { otpHash := hashOTP otp salt
                          expires := now + OTP_EXPIRY_MINUTES * 60 * 1000
                          attempts := existingAttempts
                          salt := salt }
                 else st.otps e })

/-- A concrete stand-in for the external SHA-256 hash, used only to
instantiate witnesses and counterexamples on concrete inputs. -/
def hashConcat (otp salt : String) : String := otp ++ "#" ++ salt

/-- Concrete one-user state used by witnesses and counterexamples:
the user `a@b.c` has a live OTP record for code 123456 (salt `s`,
hashed with hashConcat) expiring at time 1000, zero attempts. -/
def demoAuthState : AuthState :=
  { users := [{ id := "1", email := "a@b.c", name := "A", role := "Admin",
                invitedBy := "system", invitedAt := 0, lastLogin := 0 }]
    otps := fun e =>
      if e == "a@b.c" then
        some { otpHash := hashConcat "123456" "s", expires := 1000,
               attempts := 0, salt := "s" }
      else none
    locked := fun _ => false }

/-! ## Part B: the OTP/invite backend (Express server, `unnamed/part_002`) -/

/-- Status of an invite request: `'pending' | 'approved' | 'denied'`. -/
inductive ReqStatus where
  | pending
  | approved
  | denied
deriving Repr, DecidableEq

/-- One entry of `inviteStore`:
`code -> { email, role, invitedBy, createdAt, expiresAt, used }`. -/
structure InviteRecord where
  email : String
  role : String
  invitedBy : String
  createdAt : Nat
  expiresAt : Nat
  used : Bool
deriving Repr, DecidableEq

/-- One entry of `inviteRequests`:
`id -> { id, email, status, createdAt, approvedAt?, code? }`. -/
structure InviteRequest where
  id : String
  email : String
  status : ReqStatus
  createdAt : Nat
  approvedAt : Option Nat
  code : Option String
deriving Repr, DecidableEq

/-- The mutable in-memory state of the server: the two Maps plus the
`inviteRequestSeq` counter. -/
structure ServerState where
  inviteStore : String → Option InviteRecord
  inviteRequests : String → Option InviteRequest
  inviteRequestSeq : Nat

/-- Environment-derived configuration of the server: ADMIN_EMAIL,
ADMIN_PANEL_SECRET and INVITE_TTL_MINUTES. -/
structure ServerConfig where
  adminEmail : String
  adminPanelSecret : String
  inviteTtlMinutes : Nat
deriving Repr, DecidableEq

/-- JS truthiness of an optional string header or field: present and
non-empty. -/
def optTruthy : Option String → Bool
  | none => false
  | some s => s != ""

/-- Admin headers of a request: `x-admin-secret` and `x-admin-email`. -/
structure AdminHeaders where
  xAdminSecret : Option String
  xAdminEmail : Option String
deriving Repr, DecidableEq

/-- isAdmin from the server: a request is admin if the configured panel
secret is non-empty and the `x-admin-secret` header equals it, or the
`x-admin-email` header is present and equals ADMIN_EMAIL. -/
def isAdmin (cfg : ServerConfig) (hd : AdminHeaders) : Bool :=
  (cfg.adminPanelSecret != "" && hd.xAdminSecret == some cfg.adminPanelSecret)
  || (optTruthy hd.xAdminEmail && hd.xAdminEmail == some cfg.adminEmail)

/-- Characters admitted by the character class `[^\s@]` of the email
regular expression: anything but whitespace and `@`. -/
def emailChar (c : Char) : Bool := !c.isWhitespace && c != '@'

/-- isValidEmail from the server: an unanchored search for the pattern
`[^\s@]+@[^\s@]+\.[^\s@]+`. The string matches exactly when it has an
`@` at some index j with an admissible character right before it, a
literal `.` at some index d at least two past j, only admissible
characters strictly between j and d, and an admissible character right
after d. -/
def isValidEmail (s : String) : Bool :=
  let cs := s.toList
  let n := cs.length
  (List.range n).any fun j =>
    (List.range n).any fun d =>
      decide (1 ≤ j) && decide (j + 2 ≤ d) && decide (d + 1 < n) &&
      (cs.getD j ' ' == '@') && (cs.getD d ' ' == '.') &&
      emailChar (cs.getD (j - 1) ' ') &&
      ((List.range' (j + 1) (d - (j + 1))).all fun t => emailChar (cs.getD t ' ')) &&
      emailChar (cs.getD (d + 1) ' ')

/-- JavaScript `String.prototype.trim`: strip leading and trailing
whitespace (executable model over the character list). -/
def trimString (s : String) : String :=
  String.mk (((s.toList.dropWhile Char.isWhitespace).reverse.dropWhile
    Char.isWhitespace).reverse)

/-- Optional body field as the handlers see it after `field?.trim()`
followed by a truthiness test: absent fields behave like the empty
string. -/
def trimField (o : Option String) : String := trimString (o.getD "")

/-- Body of POST /api/auth/validate-invite: `{ inviteCode, email }`. -/
structure ValidateBody where
  inviteCode : Option String
  email : Option String
deriving Repr, DecidableEq

/-- Client-visible outcome of POST /api/auth/validate-invite:
400 `Invalid request`, or 200 with `valid:false`, or 200 with
`valid:true` plus role and invitedBy. -/
inductive ValidateResp where
  | badRequest
  | invalid
  | valid (role invitedBy : String)
deriving Repr, DecidableEq

/-- POST /api/auth/validate-invite. Read-only: trims the fields,
rejects malformed input with 400, then checks in order: code present in
inviteStore, record email equals the given email, record unused, record
unexpired (`now > expiresAt.getTime()` means expired); all four failure
cases answer 200 with `valid:false`. -/
def handleValidateInvite (st : ServerState) (now : Nat) (b : ValidateBody) :
    ValidateResp :=
  let inviteCode := trimField b.inviteCode
  let email := trimField b.email
  if inviteCode == "" || email == "" || !isValidEmail email then .badRequest
  else
    match st.inviteStore inviteCode with
    | none => .invalid
    | some record =>
      if record.email != email then .invalid
      else if record.used then .invalid
      else if record.expiresAt < now then .invalid
      else .valid record.role record.invitedBy

/-- Body of POST /api/auth/request-invite plus the double-submit CSRF
material that reaches the server with the request: the `XSRF-TOKEN`
cookie (parsed by cookieParser) and the `X-CSRF-Token` header (admitted
by the CORS allow-list). No middleware in the chain (helmet, JSON body
parser, cookieParser, cors) and no handler ever reads either of them. -/
structure RequestInviteReq where
  email : Option String
  csrfCookie : Option String
  csrfHeader : Option String
deriving Repr, DecidableEq

/-- Client-visible outcome of POST /api/auth/request-invite. -/
inductive RequestInviteResp where
  | badRequest
  | ok (requestId : String)
deriving Repr, DecidableEq

/-- HTTP status code of a request-invite response. -/
def requestInviteStatus : RequestInviteResp → Nat
  | .badRequest => 400
  | .ok _ => 200

/-- POST /api/auth/request-invite: truthiness/format check on the
(untrimmed) email, then a fresh pending invite request keyed by the
stringified sequence counter. The CSRF cookie and header fields of the
request are never consulted. -/
def handleRequestInvite (st : ServerState) (now : Nat) (req : RequestInviteReq) :
    RequestInviteResp × ServerState :=
  let email := req.email.getD ""
  if email == "" || !isValidEmail email then (.badRequest, st)
  else
    let id := toString st.inviteRequestSeq
    (.ok id,
     { st with
         inviteRequestSeq := st.inviteRequestSeq + 1
         inviteRequests := fun k =>
           if k == id then
             some { id := id, email := email, status := .pending,
                    createdAt := now, approvedAt := none, code := none }
           else st.inviteRequests k })

/-- Client-visible outcome of POST /api/admin/invite-requests/:id/approve:
403 Forbidden, 404 Request not found, 400 Request denied, or 200 with
the generated code. -/
inductive ApproveResp where
  | forbidden
  | notFound
  | requestDenied
  | ok (code : String)
deriving Repr, DecidableEq

/-- POST /api/admin/invite-requests/:id/approve. The freshly generated
invite code (`generateInviteCode`, from random bytes) is a parameter.
Source order: admin check, lookup, reject only when the request status
is `denied`; otherwise store a new unused Viewer invite for the
request's email with a TTL of `inviteTtlMinutes`, and mark the request
approved with the code and timestamp. -/
def handleApprove (cfg : ServerConfig) (st : ServerState) (now : Nat)
    (hd : AdminHeaders) (id code : String) : ApproveResp × ServerState :=
  if !isAdmin cfg hd then (.forbidden, st)
  else
    match st.inviteRequests id with
    | none => (.notFound, st)
    | some reqRec =>
      if reqRec.status == .denied then (.requestDenied, st)
      else
        (.ok code,
         { st with
             inviteStore := fun k =>
               if k == code then
                 some { email := reqRec.email, role := "Viewer",
                        invitedBy := cfg.adminEmail, createdAt := now,
                        expiresAt := now + cfg.inviteTtlMinutes * 60 * 1000,
                        used := false }
               else st.inviteStore k
             inviteRequests := fun k =>
               if k == id then
                 some { reqRec with
                          status := ReqStatus.approved
                          approvedAt := some now
                          code := some code }
               else st.inviteRequests k })

/-- Client-visible outcome of POST /api/admin/invite-requests/:id/deny. -/
inductive DenyResp where
  | forbidden
  | notFound
  | ok
deriving Repr, DecidableEq

/-- POST /api/admin/invite-requests/:id/deny. Admin check and lookup,
then the status is set to `denied` unconditionally — no check of the
current status, and the inviteStore is not touched. -/
def handleDeny (cfg : ServerConfig) (st : ServerState) (hd : AdminHeaders)
    (id : String) : DenyResp × ServerState :=
  if !isAdmin cfg hd then (.forbidden, st)
  else
    match st.inviteRequests id with
    | none => (.notFound, st)
    | some reqRec =>
      (.ok,
       { st with
           inviteRequests := fun k =>
             if k == id then some { reqRec with status := .denied }
             else st.inviteRequests k })

/-- User payload synthesized by POST /api/auth/register. -/
structure ServerUser where
  id : String
  email : String
  name : String
  role : String
  invitedBy : String
  invitedAt : Nat
  lastLogin : Nat
deriving Repr, DecidableEq

/-- Body of POST /api/auth/register: `{ email, inviteCode, name }`. -/
structure RegisterBody where
  email : Option String
  inviteCode : Option String
  name : Option String
deriving Repr, DecidableEq

/-- Client-visible outcome of POST /api/auth/register: a 400 with the
branch-specific error message, or 200 with the new user. -/
inductive RegisterResp where
  | badRequest (error : String)
  | ok (user : ServerUser)
deriving Repr, DecidableEq

/-- POST /api/auth/register. `newUserId` stands for the random
`String(randomInt(1, 1_000_000))`. Trims the three fields, rejects
malformed input with 400, then re-checks the invite exactly as
validate-invite does — but each failure cause gets its own error
message, the email-mismatch one even echoing the email the code was
issued to. On success the record's `used` flag is set and a user bound
to the invite's role and inviter is returned. -/
def handleRegister (st : ServerState) (now : Nat) (b : RegisterBody)
    (newUserId : String) : RegisterResp × ServerState :=
  let email := trimField b.email
  let inviteCode := trimField b.inviteCode
  let name := trimField b.name
  if email == "" || !isValidEmail email || inviteCode == "" || name == "" then
    (.badRequest "Email, name, and invite code are required", st)
  else
    match st.inviteStore inviteCode with
    | none => (.badRequest "Invalid invitation code", st)
    | some record =>
      if record.email != email then
        (.badRequest ("This invitation code is for " ++ record.email), st)
      else if record.used then
        (.badRequest "This invitation code has already been used", st)
      else if record.expiresAt < now then
        (.badRequest "This invitation code has expired", st)
      else
        (.ok { id := newUserId, email := email, name := name,
               role := record.role, invitedBy := record.invitedBy,
               invitedAt := record.createdAt, lastLogin := now },
         { st with
             inviteStore := fun k =>
               if k == inviteCode then some { record with used := true }
               else st.inviteStore k })

/-- Server state with empty stores, counter at 1 (module start). -/
def emptyServerState : ServerState :=
  { inviteStore := fun _ => none
    inviteRequests := fun _ => none
    inviteRequestSeq := 1 }

/-! ## Part C: secureStorage.js -/

/-- STORAGE_KEY_PREFIX from secureStorage.js. -/
def STORAGE_KEY_PREFIX : String := "secure_"

/-- The browser localStorage: string keys to string values. -/
def StorageState : Type := String → Option String

/-- SecureStorage.removeSecureItem: drop the prefixed key. -/
def removeSecureItem (st : StorageState) (key : String) : StorageState :=
  fun k => if k == STORAGE_KEY_PREFIX ++ key then none else st k

/-- SecureStorage.setSecureItem: JSON-serialize the value, encrypt, and
store under the prefixed key. The AES-GCM `encrypt` (Web Crypto) and
`JSON.stringify` are passed as parameters. -/
def setSecureItem {α : Type} (encrypt : String → String) (stringify : α → String)
    (st : StorageState) (key : String) (value : α) : StorageState :=
  fun k =>
    if k == STORAGE_KEY_PREFIX ++ key then some (encrypt (stringify value))
    else st k

/-- SecureStorage.getSecureItem: a missing entry yields null with the
store untouched; a decryption failure or an unparsable plaintext is
caught, the corrupted entry is removed, and null is returned; otherwise
the parsed value is returned. `decrypt` returns none where the source
`decrypt` throws, `parse` returns none where `JSON.parse` throws. -/
def getSecureItem {α : Type} (decrypt : String → Option String)
    (parse : String → Option α) (st : StorageState) (key : String) :
    Option α × StorageState :=
  match st (STORAGE_KEY_PREFIX ++ key) with
  | none => (none, st)
  | some encrypted =>
    match decrypt encrypted with
    | none => (none, removeSecureItem st key)
    | some decrypted =>
      match parse decrypted with
      | none => (none, removeSecureItem st key)
      | some value => (some value, st)

/-- Concrete server configuration for witnesses and counterexamples:
the default ADMIN_EMAIL, no panel secret, default 60-minute TTL. -/
def demoServerConfig : ServerConfig :=
  { adminEmail := "jm.beaminstitute@gmail.com"
    adminPanelSecret := ""
    inviteTtlMinutes := 60 }

/-- Admin headers accepted by demoServerConfig. -/
def demoAdminHeaders : AdminHeaders :=
  { xAdminSecret := none
    xAdminEmail := some "jm.beaminstitute@gmail.com" }

/-- Server state holding one pending invite request with id 1. -/
def demoPendingState : ServerState :=
  { emptyServerState with
      inviteRequests := fun k =>
        if k == "1" then
          some { id := "1", email := "v@w.xy", status := .pending,
                 createdAt := 0, approvedAt := none, code := none }
        else none }

/-- Server state after approving the request with id 1: the request is
approved and the unused invite code INV-OLD for its email is stored. -/
def demoApprovedState : ServerState :=
  { inviteStore := fun k =>
      if k == "INV-OLD" then
        some { email := "v@w.xy", role := "Viewer",
               invitedBy := "jm.beaminstitute@gmail.com", createdAt := 0,
               expiresAt := 3600000, used := false }
      else none
    inviteRequests := fun k =>
      if k == "1" then
        some { id := "1", email := "v@w.xy", status := .approved,
               createdAt := 0, approvedAt := some 0, code := some "INV-OLD" }
      else none
    inviteRequestSeq := 2 }

/-- Server state holding one denied invite request with id 1. -/
def demoDeniedState : ServerState :=
  { emptyServerState with
      inviteRequests := fun k =>
        if k == "1" then
          some { id := "1", email := "v@w.xy", status := .denied,
                 createdAt := 0, approvedAt := none, code := none }
        else none }

/-! ## Helper lemmas -/

/-- A string matched by the email pattern is non-empty (the pattern
needs at least five characters), stated on the Bool equality test. -/
theorem beq_empty_eq_false_of_isValidEmail (s : String)
    (h : isValidEmail s = true) : (s == "") = false := by
  cases hb : s == "" with
  | false => rfl
  | true =>
    have hs : s = "" := by simpa using hb
    rw [hs] at h
    exact absurd h (by decide)

/-- handleValidateInvite reads only the inviteStore component of the
server state. -/
theorem handleValidateInvite_store_congr (st1 st2 : ServerState) (now : Nat)
    (b : ValidateBody) (h : st1.inviteStore = st2.inviteStore) :
    handleValidateInvite st1 now b = handleValidateInvite st2 now b := by
  unfold handleValidateInvite
  rw [h]

/-- The response of handleRegister depends only on the inviteStore
component of the server state. -/
theorem handleRegister_resp_congr (st1 st2 : ServerState) (now : Nat)
    (b : RegisterBody) (newUserId : String)
    (h : st1.inviteStore = st2.inviteStore) :
    (handleRegister st1 now b newUserId).1 = (handleRegister st2 now b newUserId).1 := by
  unfold handleRegister
  rw [h]
  dsimp only
  split
  · rfl
  · split
    · rfl
    · split
      · rfl
      · split
        · rfl
        · split <;> rfl

/-- List.find? finds the image of the originally found element after
updateFirst, provided the image still satisfies the predicate. -/
theorem find?_updateFirst (p : User → Bool) (f : User → User) (l : List User)
    (u : User) (hu : l.find? p = some u) (hpf : p (f u) = true) :
    (updateFirst p f l).find? p = some (f u) := by
  induction l with
  | nil => simp [List.find?] at hu
  | cons a l ih =>
    cases hpa : p a with
    | true =>
      have ha : a = u := by
        rw [List.find?_cons_of_pos _ hpa] at hu
        exact Option.some.inj hu
      subst ha
      simp [updateFirst, hpa, List.find?_cons_of_pos _ hpf]
    | false =>
      rw [List.find?_cons_of_neg _ (by simp [hpa])] at hu
      have hstep : updateFirst p f (a :: l) = a :: updateFirst p f l := by
        simp [updateFirst, hpa]
      rw [hstep, List.find?_cons_of_neg _ (by simp [hpa])]
      exact ih hu

/-- A wrong, non-final verifyOTP submission (record live, unexpired,
still under the attempt limit after incrementing) fails with the
invalid-OTP error carrying the remaining count and stores the
incremented attempt counter. -/
theorem verifyOTP_wrong_nonfinal (hashOTP : String → String → String)
    (st : AuthState) (now : Nat) (email otp : String) (u : User) (d : OTPData)
    (hu : st.users.find? (fun x => x.email == email) = some u)
    (hd : st.otps email = some d)
    (hexp : ¬ d.expires < now)
    (hfin : d.attempts + 1 < MAX_OTP_ATTEMPTS)
    (hw : hashOTP otp d.salt ≠ d.otpHash) :
    verifyOTP hashOTP st now email otp =
      (.error (.invalidOTP (MAX_OTP_ATTEMPTS - (d.attempts + 1))),
       { st with
           otps := fun e =>
             if e == email then some { d with attempts := d.attempts + 1 }
             else st.otps e }) := by
  have hatt : ¬ MAX_OTP_ATTEMPTS ≤ d.attempts := by omega
  have hhash : verifyOTPHash hashOTP otp d.salt d.otpHash = false := by
    simpa [verifyOTPHash] using hw
  have hrem : ¬ MAX_OTP_ATTEMPTS - (d.attempts + 1) = 0 := by omega
  unfold verifyOTP
  rw [hu, hd]
  dsimp only
  rw [if_neg hexp, if_neg hatt, hhash]
  simp [hrem]

/-- A wrong, final verifyOTP submission (the incremented counter
reaches the maximum) permanently locks the email, deletes the OTP
record and fails with the lockout error. -/
theorem verifyOTP_wrong_final (hashOTP : String → String → String)
    (st : AuthState) (now : Nat) (email otp : String) (u : User) (d : OTPData)
    (hu : st.users.find? (fun x => x.email == email) = some u)
    (hd : st.otps email = some d)
    (hexp : ¬ d.expires < now)
    (hfin : d.attempts + 1 = MAX_OTP_ATTEMPTS)
    (hw : hashOTP otp d.salt ≠ d.otpHash) :
    verifyOTP hashOTP st now email otp =
      (.error .accountPermanentlyLocked,
       { st with
           otps := fun e => if e == email then none else st.otps e
           locked := fun e => e == email || st.locked e }) := by
  have hatt : ¬ MAX_OTP_ATTEMPTS ≤ d.attempts := by omega
  have hhash : verifyOTPHash hashOTP otp d.salt d.otpHash = false := by
    simpa [verifyOTPHash] using hw
  have hrem : MAX_OTP_ATTEMPTS - (d.attempts + 1) = 0 := by omega
  unfold verifyOTP
  rw [hu, hd]
  dsimp only
  rw [if_neg hexp, if_neg hatt, hhash]
  simp [hrem]

/-- verifyOTP with no live OTP record for the email fails with the
not-found error, state unchanged. -/
theorem verifyOTP_notFound (hashOTP : String → String → String)
    (st : AuthState) (now : Nat) (email otp : String) (u : User)
    (hu : st.users.find? (fun x => x.email == email) = some u)
    (hn : st.otps email = none) :
    verifyOTP hashOTP st now email otp = (.error .otpNotFound, st) := by
  unfold verifyOTP
  rw [hu, hn]

/-- requestOTP for a permanently locked email fails with the lockout
error, state unchanged. -/
theorem requestOTP_locked (hashOTP : String → String → String)
    (st : AuthState) (now : Nat) (email : String) (resp : BackendOtpResp)
    (salt : String) (hl : st.locked email = true) :
    requestOTP hashOTP st now email resp salt =
      (.error .accountPermanentlyLocked, st) := by
  simp [requestOTP, checkAccountSecurity, hl]

/-! ## Claim theorems -/

/-- C9: beyond being syntactically valid and not permanently locked,
requestOTP requires the email to belong to a pre-seeded user: for an
email absent from MOCK_USERS, it rejects with the user-not-found error
and leaves the state unchanged, uniformly in the backend response and
salt — so the rejection is decided before the OTP backend is contacted
and no OTP record is created or overwritten. -/
theorem requestOTP_requires_registered_user
    (hashOTP : String → String → String) (st : AuthState) (now : Nat)
    (email : String) (resp : BackendOtpResp) (salt : String)
    (hl : st.locked email = false)
    (hu : st.users.find? (fun u => u.email == email) = none) :
    requestOTP hashOTP st now email resp salt = (.error .userNotFound, st) := by
  simp [requestOTP, checkAccountSecurity, hl, hu]

/-- Witness: requestOTP_requires_registered_user at a concrete state and
email, every hypothesis discharged by evaluation. -/
theorem requestOTP_requires_registered_user_witness :
    requestOTP hashConcat demoAuthState 0 "nobody@x.y"
      { ok := true, otp := some "111111", isDemoMode := true } "s2"
      = (.error .userNotFound, demoAuthState) :=
  requestOTP_requires_registered_user hashConcat demoAuthState 0 "nobody@x.y"
    { ok := true, otp := some "111111", isDemoMode := true } "s2"
    (by decide) (by decide)

/-- C10: denyInviteRequest mutates only the invite-request entry and
never touches the invite-code store: the inviteStore after a deny is
the one before it, and both validate-invite and the register response
are unchanged by the deny — in particular a code issued when the
request was approved is still accepted afterwards, until used or
expired. -/
theorem deny_preserves_invite_codes (cfg : ServerConfig) (st : ServerState)
    (hd : AdminHeaders) (id : String) (now now' : Nat) (b : ValidateBody)
    (b' : RegisterBody) (newUserId : String) :
    (handleDeny cfg st hd id).2.inviteStore = st.inviteStore ∧
    handleValidateInvite (handleDeny cfg st hd id).2 now b =
      handleValidateInvite st now b ∧
    (handleRegister (handleDeny cfg st hd id).2 now' b' newUserId).1 =
      (handleRegister st now' b' newUserId).1 := by
  have hstore : (handleDeny cfg st hd id).2.inviteStore = st.inviteStore := by
    unfold handleDeny
    split
    · rfl
    · split <;> rfl
  exact ⟨hstore, handleValidateInvite_store_congr _ _ _ _ hstore,
         handleRegister_resp_congr _ _ _ _ _ hstore⟩

/-- C2 counterexample: a state-changing request whose CSRF header is
absent while the CSRF cookie holds a token is not rejected with a
forbidden status: POST /api/auth/request-invite answers 200 and a
pending invite request is created — business logic runs and server
state is mutated. -/
theorem csrf_mismatch_not_rejected :
    requestInviteStatus
      (handleRequestInvite emptyServerState 5
        { email := some "visitor@example.com", csrfCookie := some "aToken",
          csrfHeader := none }).1 = 200 ∧
    (handleRequestInvite emptyServerState 5
        { email := some "visitor@example.com", csrfCookie := some "aToken",
          csrfHeader := none }).2.inviteRequests "1" =
      some { id := "1", email := "visitor@example.com", status := .pending,
             createdAt := 5, approvedAt := none, code := none } ∧
    emptyServerState.inviteRequests "1" = none := by decide

/-- C2 amended: the server applies no CSRF validation at all — the
outcome of POST /api/auth/request-invite is independent of the CSRF
cookie and header carried by the request, and with a well-formed email
the request is processed: status 200 and a fresh pending invite request
is stored. (The double-submit pattern exists only client-side.) -/
theorem server_ignores_csrf_tokens (st : ServerState) (now : Nat)
    (email : Option String) (c1 h1 c2 h2 : Option String)
    (he : isValidEmail (email.getD "") = true) :
    handleRequestInvite st now { email := email, csrfCookie := c1, csrfHeader := h1 } =
      handleRequestInvite st now { email := email, csrfCookie := c2, csrfHeader := h2 } ∧
    requestInviteStatus
      (handleRequestInvite st now
        { email := email, csrfCookie := c1, csrfHeader := h1 }).1 = 200 ∧
    (handleRequestInvite st now
        { email := email, csrfCookie := c1, csrfHeader := h1 }).2.inviteRequests
        (toString st.inviteRequestSeq) =
      some { id := toString st.inviteRequestSeq, email := email.getD "",
             status := .pending, createdAt := now, approvedAt := none,
             code := none } := by
  have hne : (email.getD "" == "") = false := beq_empty_eq_false_of_isValidEmail _ he
  refine ⟨rfl, ?_, ?_⟩
  · simp [handleRequestInvite, requestInviteStatus, hne, he]
  · simp [handleRequestInvite, hne, he]

/-- Witness: server_ignores_csrf_tokens on the empty server state with
a concrete email and concrete CSRF cookie/header values. -/
theorem server_ignores_csrf_tokens_witness :
    handleRequestInvite emptyServerState 7
        { email := some "w@x.yz", csrfCookie := some "tok", csrfHeader := none } =
      handleRequestInvite emptyServerState 7
        { email := some "w@x.yz", csrfCookie := none, csrfHeader := some "other" } ∧
    requestInviteStatus
      (handleRequestInvite emptyServerState 7
        { email := some "w@x.yz", csrfCookie := some "tok", csrfHeader := none }).1 = 200 ∧
    (handleRequestInvite emptyServerState 7
        { email := some "w@x.yz", csrfCookie := some "tok", csrfHeader := none }).2.inviteRequests
        (toString emptyServerState.inviteRequestSeq) =
      some { id := toString emptyServerState.inviteRequestSeq, email := "w@x.yz",
             status := .pending, createdAt := 7, approvedAt := none, code := none } :=
  server_ignores_csrf_tokens emptyServerState 7 (some "w@x.yz")
    (some "tok") none none (some "other") (by decide)

/-- C5 counterexample: the transitions are not gated on `pending`.
Approving the already-approved request 1 succeeds again (issuing a
fresh code INV-NEW and storing it), and denying the already-denied
request 1 also succeeds — neither operation fails or leaves the state
unchanged as the claim requires. -/
theorem approve_succeeds_on_approved_request :
    (handleApprove demoServerConfig demoApprovedState 5 demoAdminHeaders
      "1" "INV-NEW").1 = .ok "INV-NEW" ∧
    (handleApprove demoServerConfig demoApprovedState 5 demoAdminHeaders
      "1" "INV-NEW").2.inviteStore "INV-NEW" ≠ none ∧
    demoApprovedState.inviteStore "INV-NEW" = none ∧
    (handleDeny demoServerConfig demoDeniedState demoAdminHeaders "1").1 = .ok ∧
    (handleDeny demoServerConfig demoApprovedState demoAdminHeaders "1").1 = .ok := by
  decide

/-- C5 amended: for an admin request, approve fails only when the
request is missing (404) or already denied (400); from `pending` or
`approved` it succeeds, storing a fresh unused Viewer invite for the
request's email with the configured TTL and stamping the request
approved. Deny succeeds for every existing request regardless of its
status, setting the status to denied; both operations answer 404 and
leave the state unchanged when the id is unknown. -/
theorem invite_request_transitions (cfg : ServerConfig) (st : ServerState)
    (now : Nat) (hd : AdminHeaders) (id code : String)
    (hadmin : isAdmin cfg hd = true) :
    (st.inviteRequests id = none →
       handleApprove cfg st now hd id code = (.notFound, st) ∧
       handleDeny cfg st hd id = (.notFound, st)) ∧
    (∀ r, st.inviteRequests id = some r →
       (r.status = .denied →
          handleApprove cfg st now hd id code = (.requestDenied, st)) ∧
       (r.status ≠ .denied →
          (handleApprove cfg st now hd id code).1 = .ok code ∧
          (handleApprove cfg st now hd id code).2.inviteRequests id =
            some { r with
                     status := ReqStatus.approved
                     approvedAt := some now
                     code := some code } ∧
          (handleApprove cfg st now hd id code).2.inviteStore code =
            some { email := r.email, role := "Viewer",
                   invitedBy := cfg.adminEmail, createdAt := now,
                   expiresAt := now + cfg.inviteTtlMinutes * 60 * 1000,
                   used := false }) ∧
       (handleDeny cfg st hd id).1 = .ok ∧
       (handleDeny cfg st hd id).2.inviteRequests id =
         some { r with status := .denied }) := by
  constructor
  · intro hnone
    constructor
    · simp [handleApprove, hadmin, hnone]
    · simp [handleDeny, hadmin, hnone]
  · intro r hr
    refine ⟨?_, ?_, ?_, ?_⟩
    · intro hden
      simp [handleApprove, hadmin, hr, hden]
    · intro hnd
      have hbeq : (r.status == ReqStatus.denied) = false := by
        simpa using hnd
      refine ⟨?_, ?_, ?_⟩
      · simp [handleApprove, hadmin, hr, hbeq]
      · simp [handleApprove, hadmin, hr, hbeq]
      · simp [handleApprove, hadmin, hr, hbeq]
    · simp [handleDeny, hadmin, hr]
    · simp [handleDeny, hadmin, hr]

/-- Witness: invite_request_transitions on the state holding the
pending request 1, with the admin headers, at time 5 and code INV-NEW. -/
theorem invite_request_transitions_witness :
    (demoPendingState.inviteRequests "1" = none →
       handleApprove demoServerConfig demoPendingState 5 demoAdminHeaders "1" "INV-NEW"
         = (.notFound, demoPendingState) ∧
       handleDeny demoServerConfig demoPendingState demoAdminHeaders "1"
         = (.notFound, demoPendingState)) ∧
    (∀ r, demoPendingState.inviteRequests "1" = some r →
       (r.status = .denied →
          handleApprove demoServerConfig demoPendingState 5 demoAdminHeaders "1" "INV-NEW"
            = (.requestDenied, demoPendingState)) ∧
       (r.status ≠ .denied →
          (handleApprove demoServerConfig demoPendingState 5 demoAdminHeaders
            "1" "INV-NEW").1 = .ok "INV-NEW" ∧
          (handleApprove demoServerConfig demoPendingState 5 demoAdminHeaders
            "1" "INV-NEW").2.inviteRequests "1" =
            some { r with
                     status := ReqStatus.approved
                     approvedAt := some 5
                     code := some "INV-NEW" } ∧
          (handleApprove demoServerConfig demoPendingState 5 demoAdminHeaders
            "1" "INV-NEW").2.inviteStore "INV-NEW" =
            some { email := r.email, role := "Viewer",
                   invitedBy := demoServerConfig.adminEmail, createdAt := 5,
                   expiresAt := 5 + demoServerConfig.inviteTtlMinutes * 60 * 1000,
                   used := false }) ∧
       (handleDeny demoServerConfig demoPendingState demoAdminHeaders "1").1 = .ok ∧
       (handleDeny demoServerConfig demoPendingState demoAdminHeaders "1").2.inviteRequests "1" =
         some { r with status := .denied }) :=
  invite_request_transitions demoServerConfig demoPendingState 5 demoAdminHeaders
    "1" "INV-NEW" (by decide)

/-- C6: for well-formed input (non-empty trimmed code, syntactically
valid trimmed email) validate-invite never answers with the hard 400
error: each of the four soft cases — code not found, code issued to a
different email, code already used, code expired — answers
`valid:false`, and otherwise it answers `valid:true` with the record's
role and inviter. -/
theorem validate_invite_soft_failure (st : ServerState) (now : Nat)
    (b : ValidateBody)
    (hcode : trimField b.inviteCode ≠ "")
    (hemail : isValidEmail (trimField b.email) = true) :
    handleValidateInvite st now b ≠ .badRequest ∧
    (st.inviteStore (trimField b.inviteCode) = none →
       handleValidateInvite st now b = .invalid) ∧
    (∀ rec, st.inviteStore (trimField b.inviteCode) = some rec →
       (rec.email ≠ trimField b.email → handleValidateInvite st now b = .invalid) ∧
       (rec.email = trimField b.email → rec.used = true →
          handleValidateInvite st now b = .invalid) ∧
       (rec.email = trimField b.email → rec.used = false → rec.expiresAt < now →
          handleValidateInvite st now b = .invalid) ∧
       (rec.email = trimField b.email → rec.used = false → ¬ rec.expiresAt < now →
          handleValidateInvite st now b = .valid rec.role rec.invitedBy)) := by
  have hc : (trimField b.inviteCode == "") = false := by
    simpa using hcode
  have he : (trimField b.email == "") = false :=
    beq_empty_eq_false_of_isValidEmail _ hemail
  have hmain : handleValidateInvite st now b =
      (match st.inviteStore (trimField b.inviteCode) with
       | none => .invalid
       | some rec =>
         if rec.email != trimField b.email then .invalid
         else if rec.used then .invalid
         else if rec.expiresAt < now then .invalid
         else .valid rec.role rec.invitedBy) := by
    unfold handleValidateInvite
    simp [hc, he, hemail]
  refine ⟨?_, ?_, ?_⟩
  · rw [hmain]
    cases hrec : st.inviteStore (trimField b.inviteCode) with
    | none => simp
    | some rec =>
      dsimp only
      split
      · simp
      · split
        · simp
        · split <;> simp
  · intro hnone
    rw [hmain, hnone]
  · intro rec hrec
    refine ⟨?_, ?_, ?_, ?_⟩
    · intro hne
      have hb : (rec.email != trimField b.email) = true := by
        simpa using hne
      rw [hmain, hrec]
      simp [hb]
    · intro heq hused
      have hb : (rec.email != trimField b.email) = false := by
        simpa using heq
      rw [hmain, hrec]
      simp [hb, hused]
    · intro heq hused hexp
      have hb : (rec.email != trimField b.email) = false := by
        simpa using heq
      rw [hmain, hrec]
      simp [hb, hused, hexp]
    · intro heq hused hexp
      have hb : (rec.email != trimField b.email) = false := by
        simpa using heq
      rw [hmain, hrec]
      simp [hb, hused, hexp]

/-- Witness: validate_invite_soft_failure on the approved-state store
with the concrete code INV-OLD and email of the demo request. -/
theorem validate_invite_soft_failure_witness :
    handleValidateInvite demoApprovedState 0
      { inviteCode := some "INV-OLD", email := some "v@w.xy" } ≠ .badRequest ∧
    (demoApprovedState.inviteStore
        (trimField (some "INV-OLD" : Option String)) = none →
       handleValidateInvite demoApprovedState 0
         { inviteCode := some "INV-OLD", email := some "v@w.xy" } = .invalid) ∧
    (∀ rec, demoApprovedState.inviteStore
        (trimField (some "INV-OLD" : Option String)) = some rec →
       (rec.email ≠ trimField (some "v@w.xy" : Option String) →
          handleValidateInvite demoApprovedState 0
            { inviteCode := some "INV-OLD", email := some "v@w.xy" } = .invalid) ∧
       (rec.email = trimField (some "v@w.xy" : Option String) → rec.used = true →
          handleValidateInvite demoApprovedState 0
            { inviteCode := some "INV-OLD", email := some "v@w.xy" } = .invalid) ∧
       (rec.email = trimField (some "v@w.xy" : Option String) → rec.used = false →
          rec.expiresAt < 0 →
          handleValidateInvite demoApprovedState 0
            { inviteCode := some "INV-OLD", email := some "v@w.xy" } = .invalid) ∧
       (rec.email = trimField (some "v@w.xy" : Option String) → rec.used = false →
          ¬ rec.expiresAt < 0 →
          handleValidateInvite demoApprovedState 0
            { inviteCode := some "INV-OLD", email := some "v@w.xy" }
            = .valid rec.role rec.invitedBy)) :=
  validate_invite_soft_failure demoApprovedState 0
    { inviteCode := some "INV-OLD", email := some "v@w.xy" }
    (by decide) (by decide)

/-- C3: invite codes are single-use. With a valid invite (code found,
matching email, unused, unexpired) and well-formed input, the first
register call succeeds with a user bound to the invite's role and
inviter and permanently flips the record's used flag; the immediately
following register call with the same code and email fails with the
used-code invite error and changes nothing. Moreover every successful
register call requires exactly: code present, issued to the given
email, unused, and unexpired. -/
theorem register_invite_single_use (st : ServerState) (now1 now2 : Nat)
    (b : RegisterBody) (id1 id2 : String) (rec : InviteRecord)
    (hcode : st.inviteStore (trimField b.inviteCode) = some rec)
    (hemail : rec.email = trimField b.email)
    (hused : rec.used = false)
    (hexp : ¬ rec.expiresAt < now1)
    (hv : isValidEmail (trimField b.email) = true)
    (hc : trimField b.inviteCode ≠ "")
    (hn : trimField b.name ≠ "") :
    (handleRegister st now1 b id1).1 =
      .ok { id := id1, email := trimField b.email, name := trimField b.name,
            role := rec.role, invitedBy := rec.invitedBy,
            invitedAt := rec.createdAt, lastLogin := now1 } ∧
    (handleRegister st now1 b id1).2.inviteStore (trimField b.inviteCode) =
      some { rec with used := true } ∧
    handleRegister (handleRegister st now1 b id1).2 now2 b id2 =
      (.badRequest "This invitation code has already been used",
       (handleRegister st now1 b id1).2) ∧
    (∀ st' n' b' i' u, (handleRegister st' n' b' i').1 = .ok u →
       ∃ rec', st'.inviteStore (trimField b'.inviteCode) = some rec' ∧
         rec'.email = trimField b'.email ∧ rec'.used = false ∧
         ¬ rec'.expiresAt < n') := by
  have hce : (trimField b.email == "") = false :=
    beq_empty_eq_false_of_isValidEmail _ hv
  have hcc : (trimField b.inviteCode == "") = false := by simpa using hc
  have hcn : (trimField b.name == "") = false := by simpa using hn
  have hbe : (rec.email != trimField b.email) = false := by simpa using hemail
  have h1 : handleRegister st now1 b id1 =
      (.ok { id := id1, email := trimField b.email, name := trimField b.name,
             role := rec.role, invitedBy := rec.invitedBy,
             invitedAt := rec.createdAt, lastLogin := now1 },
       { st with
           inviteStore := fun k =>
             if k == trimField b.inviteCode then some { rec with used := true }
             else st.inviteStore k }) := by
    unfold handleRegister
    simp [hce, hcc, hcn, hv, hcode, hbe, hused, hexp]
  have h2 : (handleRegister st now1 b id1).2.inviteStore (trimField b.inviteCode) =
      some { rec with used := true } := by
    rw [h1]
    simp
  refine ⟨by rw [h1], h2, ?_, ?_⟩
  · rw [h1]
    unfold handleRegister
    simp [hce, hcc, hcn, hv, hbe]
  · intro st' n' b' i' u hok
    unfold handleRegister at hok
    dsimp only at hok
    split at hok
    · simp at hok
    · split at hok
      · simp at hok
      · rename_i rec' hrec'
        split at hok
        · simp at hok
        · split at hok
          · simp at hok
          · split at hok
            · simp at hok
            · rename_i hmm hus hex
              refine ⟨rec', hrec', ?_, ?_, hex⟩
              · simpa using hmm
              · simpa using hus

/-- Witness: register_invite_single_use on the approved-state store
with the invite INV-OLD, its email, and name N. -/
theorem register_invite_single_use_witness :
    (handleRegister demoApprovedState 10
      { email := some "v@w.xy", inviteCode := some "INV-OLD", name := some "N" }
      "9").1 =
      .ok { id := "9", email := trimField (some "v@w.xy" : Option String),
            name := trimField (some "N" : Option String),
            role := "Viewer", invitedBy := "jm.beaminstitute@gmail.com",
            invitedAt := 0, lastLogin := 10 } ∧
    (handleRegister demoApprovedState 10
      { email := some "v@w.xy", inviteCode := some "INV-OLD", name := some "N" }
      "9").2.inviteStore (trimField (some "INV-OLD" : Option String)) =
      some { email := "v@w.xy", role := "Viewer",
             invitedBy := "jm.beaminstitute@gmail.com", createdAt := 0,
             expiresAt := 3600000, used := true } ∧
    handleRegister
      (handleRegister demoApprovedState 10
        { email := some "v@w.xy", inviteCode := some "INV-OLD", name := some "N" }
        "9").2 11
      { email := some "v@w.xy", inviteCode := some "INV-OLD", name := some "N" }
      "10" =
      (.badRequest "This invitation code has already been used",
       (handleRegister demoApprovedState 10
         { email := some "v@w.xy", inviteCode := some "INV-OLD", name := some "N" }
         "9").2) ∧
    (∀ st' n' b' i' u, (handleRegister st' n' b' i').1 = .ok u →
       ∃ rec', st'.inviteStore (trimField b'.inviteCode) = some rec' ∧
         rec'.email = trimField b'.email ∧ rec'.used = false ∧
         ¬ rec'.expiresAt < n') :=
  register_invite_single_use demoApprovedState 10 11
    { email := some "v@w.xy", inviteCode := some "INV-OLD", name := some "N" }
    "9" "10"
    { email := "v@w.xy", role := "Viewer",
      invitedBy := "jm.beaminstitute@gmail.com", createdAt := 0,
      expiresAt := 3600000, used := false }
    (by decide) (by decide) (by decide) (by decide) (by decide) (by decide)
    (by decide)

/-- C4 counterexample: two inputs that fail for different reasons get
distinguishable client-visible responses: an unknown code answers
`Invalid invitation code`, while a known code submitted with a
different email answers `This invitation code is for v@w.xy`,
revealing the failure mode (and the invitee's email). -/
theorem register_failure_modes_distinguishable :
    (handleRegister demoApprovedState 0
      { email := some "v@w.xy", inviteCode := some "INV-MISSING",
        name := some "N" } "9").1 =
      .badRequest "Invalid invitation code" ∧
    (handleRegister demoApprovedState 0
      { email := some "other@w.xy", inviteCode := some "INV-OLD",
        name := some "N" } "9").1 =
      .badRequest "This invitation code is for v@w.xy" ∧
    (.badRequest "Invalid invitation code" : RegisterResp) ≠
      .badRequest "This invitation code is for v@w.xy" := by
  decide

/-- C4 amended: register re-validates the invite exactly as
validate-invite does — with a non-empty name, register succeeds exactly
when validate-invite reports valid on the same code and email — but the
invite-failure causes are NOT collapsed in register's client-visible
response: each cause has its own distinct error message (see the
counterexample); only validate-invite answers a uniform `valid:false`. -/
theorem register_accepts_iff_validate_valid (st : ServerState) (now : Nat)
    (b : RegisterBody) (newUserId : String)
    (hn : trimField b.name ≠ "") :
    (∃ u, (handleRegister st now b newUserId).1 = .ok u) ↔
    (∃ role invitedBy, handleValidateInvite st now
       { inviteCode := b.inviteCode, email := b.email } = .valid role invitedBy) := by
  have hcn : (trimField b.name == "") = false := by simpa using hn
  by_cases h1 : (trimField b.email == "") = true
  · simp [handleRegister, handleValidateInvite, h1]
  · replace h1 : (trimField b.email == "") = false := by
      simpa using h1
    by_cases h2 : isValidEmail (trimField b.email) = true
    · by_cases h3 : (trimField b.inviteCode == "") = true
      · simp [handleRegister, handleValidateInvite, h1, h2, h3]
      · replace h3 : (trimField b.inviteCode == "") = false := by
          simpa using h3
        cases hrec : st.inviteStore (trimField b.inviteCode) with
        | none =>
          simp [handleRegister, handleValidateInvite, h1, h2, h3, hcn, hrec]
        | some rec =>
          by_cases h4 : (rec.email != trimField b.email) = true
          · simp [handleRegister, handleValidateInvite, h1, h2, h3, hcn, hrec, h4]
          · replace h4 : (rec.email != trimField b.email) = false := by
              simpa using h4
            by_cases h5 : rec.used = true
            · simp [handleRegister, handleValidateInvite, h1, h2, h3, hcn, hrec,
                    h4, h5]
            · replace h5 : rec.used = false := by
                simpa using h5
              by_cases h6 : rec.expiresAt < now
              · simp [handleRegister, handleValidateInvite, h1, h2, h3, hcn, hrec,
                      h4, h5, h6]
              · simp [handleRegister, handleValidateInvite, h1, h2, h3, hcn, hrec,
                      h4, h5, h6]
    · replace h2 : isValidEmail (trimField b.email) = false := by
        simpa using h2
      simp [handleRegister, handleValidateInvite, h1, h2]

/-- Witness: register_accepts_iff_validate_valid on the approved-state
store with the invite INV-OLD and its email. -/
theorem register_accepts_iff_validate_valid_witness :
    (∃ u, (handleRegister demoApprovedState 0
      { email := some "v@w.xy", inviteCode := some "INV-OLD", name := some "N" }
      "9").1 = .ok u) ↔
    (∃ role invitedBy, handleValidateInvite demoApprovedState 0
      { inviteCode := some "INV-OLD", email := some "v@w.xy" }
      = .valid role invitedBy) :=
  register_accepts_iff_validate_valid demoApprovedState 0
    { email := some "v@w.xy", inviteCode := some "INV-OLD", name := some "N" }
    "9" (by decide)

/-- C7: OTP verification is replay-safe. A successful verifyOTP deletes
the email's OTP record, and an immediately repeated verifyOTP with the
same email and code fails with the not-found error, leaving the state
unchanged. -/
theorem verifyOTP_replay_safe (hashOTP : String → String → String)
    (st : AuthState) (t1 t2 : Nat) (email otp : String) (user : User)
    (st1 : AuthState)
    (hs : verifyOTP hashOTP st t1 email otp = (.ok user, st1)) :
    st1.otps email = none ∧
    verifyOTP hashOTP st1 t2 email otp = (.error .otpNotFound, st1) := by
  unfold verifyOTP at hs
  cases hfind : st.users.find? (fun u => u.email == email) with
  | none =>
    rw [hfind] at hs
    exact absurd hs (by simp)
  | some u0 =>
    rw [hfind] at hs
    cases hotp : st.otps email with
    | none =>
      rw [hotp] at hs
      exact absurd hs (by simp)
    | some d =>
      rw [hotp] at hs
      dsimp only at hs
      split at hs
      · exact absurd hs (by simp)
      · split at hs
        · exact absurd hs (by simp)
        · split at hs
          · rw [Prod.mk.injEq] at hs
            obtain ⟨hu1, hst1⟩ := hs
            constructor
            · rw [← hst1]
              simp
            · rw [← hst1]
              unfold verifyOTP
              have hfind2 : (updateFirst (fun x => x.email == email)
                  (fun x => { x with lastLogin := t1 }) st.users).find?
                  (fun x => x.email == email) =
                  some { u0 with lastLogin := t1 } := by
                apply find?_updateFirst _ _ _ _ hfind
                simpa using List.find?_some hfind
              rw [hfind2]
              simp
          · split at hs <;> exact absurd hs (by simp)

/-- Witness: verifyOTP_replay_safe on the demo state with the correct
code 123456, hypothesis discharged by rfl. -/
theorem verifyOTP_replay_safe_witness :
    (verifyOTP hashConcat demoAuthState 0 "a@b.c" "123456").2.otps "a@b.c"
      = none ∧
    verifyOTP hashConcat (verifyOTP hashConcat demoAuthState 0 "a@b.c" "123456").2
        1 "a@b.c" "123456" =
      (.error .otpNotFound,
       (verifyOTP hashConcat demoAuthState 0 "a@b.c" "123456").2) :=
  verifyOTP_replay_safe hashConcat demoAuthState 0 1 "a@b.c" "123456"
    { id := "1", email := "a@b.c", name := "A", role := "Admin",
      invitedBy := "system", invitedAt := 0, lastLogin := 0 }
    (verifyOTP hashConcat demoAuthState 0 "a@b.c" "123456").2 rfl

/-- C8: secure client storage round-trips, and treats undecryptable
ciphertext as no value with self-healing removal. Under the correctness
of the external AES-GCM pair on the stored blob and of the JSON codec
on the stored value, put followed by get returns the value with the
store unchanged; and when the blob stored for a key cannot be
decrypted, get returns none and removes the entry, so a subsequent get
also returns none. -/
theorem secure_storage_roundtrip_and_corruption {α : Type}
    (encrypt : String → String) (decrypt : String → Option String)
    (stringify : α → String) (parse : String → Option α)
    (st : StorageState) (key : String) (value : α)
    (st2 : StorageState) (key2 : String) (c : String)
    (hdec : decrypt (encrypt (stringify value)) = some (stringify value))
    (hparse : parse (stringify value) = some value)
    (hstored : st2 (STORAGE_KEY_PREFIX ++ key2) = some c)
    (hcorrupt : decrypt c = none) :
    getSecureItem decrypt parse (setSecureItem encrypt stringify st key value) key
      = (some value, setSecureItem encrypt stringify st key value) ∧
    getSecureItem decrypt parse st2 key2 = (none, removeSecureItem st2 key2) ∧
    (getSecureItem decrypt parse (removeSecureItem st2 key2) key2).1
      = (none : Option α) := by
  refine ⟨?_, ?_, ?_⟩
  · unfold getSecureItem setSecureItem
    simp [hdec, hparse]
  · unfold getSecureItem
    rw [hstored]
    dsimp only
    rw [hcorrupt]
  · unfold getSecureItem removeSecureItem
    simp

/-- Witness: secure_storage_roundtrip_and_corruption with a concrete
marker cipher, decimal codec on Nat, an empty store for the round trip
and a store holding an undecryptable blob X for the corruption case. -/
theorem secure_storage_roundtrip_and_corruption_witness :
    getSecureItem (fun s => if s == "E5" then some "5" else none)
        (fun s => if s == "5" then some (5 : Nat) else none)
        (setSecureItem (fun s => String.append "E" s) (fun n : Nat => toString n)
          (fun _ => none) "a" 5) "a"
      = (some 5,
         setSecureItem (fun s => String.append "E" s) (fun n : Nat => toString n)
           (fun _ => none) "a" 5) ∧
    getSecureItem (fun s => if s == "E5" then some "5" else none)
        (fun s => if s == "5" then some (5 : Nat) else none)
        (fun k => if k == "secure_b" then some "X" else none) "b"
      = (none,
         removeSecureItem (fun k => if k == "secure_b" then some "X" else none) "b") ∧
    (getSecureItem (fun s => if s == "E5" then some "5" else none)
        (fun s => if s == "5" then some (5 : Nat) else none)
        (removeSecureItem (fun k => if k == "secure_b" then some "X" else none) "b")
        "b").1 = (none : Option Nat) :=
  secure_storage_roundtrip_and_corruption
    (fun s => String.append "E" s)
    (fun s => if s == "E5" then some "5" else none)
    (fun n : Nat => toString n)
    (fun s => if s == "5" then some (5 : Nat) else none)
    (fun _ => none) "a" 5
    (fun k => if k == "secure_b" then some "X" else none) "b" "X"
    (by decide) (by decide) (by decide) (by decide)

/-- C1 counterexample: after three wrong submissions the OTP record has
been deleted, so the fourth submission — here with the correct code —
fails with the not-found error, not with AccountPermanentlyLocked as
the claim states. -/
theorem otp_fourth_submission_not_lockout_error :
    (verifyOTP hashConcat
      (verifyOTP hashConcat
        (verifyOTP hashConcat
          (verifyOTP hashConcat demoAuthState 0 "a@b.c" "000000").2
          0 "a@b.c" "000000").2
        0 "a@b.c" "000000").2
      0 "a@b.c" "123456").1 = .error .otpNotFound ∧
    ((.error .otpNotFound : Except VerifyErr User) ≠
      .error .accountPermanentlyLocked) := by
  decide

/-- C1 amended: the first two wrong submissions fail with the
invalid-OTP error counting the remaining attempts; the THIRD wrong
submission reaches the maximum of 3, adds the email to the
permanently-locked set, deletes the OTP record, and is the submission
failing with AccountPermanentlyLocked; the fourth submission (even with
the correct code) fails with the not-found error because the record is
gone; and every subsequent requestOTP for the email fails with the
lockout error, leaving the state unchanged. -/
theorem otp_lockout_after_three_wrong_attempts
    (hashOTP : String → String → String) (st : AuthState)
    (email w1 w2 w3 c : String) (t1 t2 t3 t4 t5 : Nat) (u : User) (d : OTPData)
    (hu : st.users.find? (fun x => x.email == email) = some u)
    (hd : st.otps email = some d)
    (ha : d.attempts = 0)
    (he1 : ¬ d.expires < t1) (he2 : ¬ d.expires < t2) (he3 : ¬ d.expires < t3)
    (hw1 : hashOTP w1 d.salt ≠ d.otpHash)
    (hw2 : hashOTP w2 d.salt ≠ d.otpHash)
    (hw3 : hashOTP w3 d.salt ≠ d.otpHash) :
    (verifyOTP hashOTP st t1 email w1).1 = .error (.invalidOTP 2) ∧
    (verifyOTP hashOTP (verifyOTP hashOTP st t1 email w1).2 t2 email w2).1
      = .error (.invalidOTP 1) ∧
    (verifyOTP hashOTP
      (verifyOTP hashOTP (verifyOTP hashOTP st t1 email w1).2 t2 email w2).2
      t3 email w3).1 = .error .accountPermanentlyLocked ∧
    (verifyOTP hashOTP
      (verifyOTP hashOTP (verifyOTP hashOTP st t1 email w1).2 t2 email w2).2
      t3 email w3).2.locked email = true ∧
    (verifyOTP hashOTP
      (verifyOTP hashOTP (verifyOTP hashOTP st t1 email w1).2 t2 email w2).2
      t3 email w3).2.otps email = none ∧
    (verifyOTP hashOTP
      (verifyOTP hashOTP
        (verifyOTP hashOTP (verifyOTP hashOTP st t1 email w1).2 t2 email w2).2
        t3 email w3).2 t4 email c).1 = .error .otpNotFound ∧
    (∀ resp salt, requestOTP hashOTP
      (verifyOTP hashOTP
        (verifyOTP hashOTP (verifyOTP hashOTP st t1 email w1).2 t2 email w2).2
        t3 email w3).2 t5 email resp salt =
      (.error .accountPermanentlyLocked,
       (verifyOTP hashOTP
         (verifyOTP hashOTP (verifyOTP hashOTP st t1 email w1).2 t2 email w2).2
         t3 email w3).2)) := by
  obtain ⟨dh, de, da, ds⟩ := d
  dsimp only at ha he1 he2 he3 hw1 hw2 hw3
  subst ha
  have e1 : verifyOTP hashOTP st t1 email w1 =
      (.error (.invalidOTP 2),
       { st with
           otps := fun e =>
             if e == email then some (⟨dh, de, 1, ds⟩ : OTPData)
             else st.otps e }) :=
    (verifyOTP_wrong_nonfinal hashOTP st t1 email w1 u ⟨dh, de, 0, ds⟩
      hu hd he1
      (by
        show 0 + 1 < MAX_OTP_ATTEMPTS
        decide) hw1).trans rfl
  have hdA : ({ st with
      otps := fun e =>
        if e == email then some (⟨dh, de, 1, ds⟩ : OTPData)
        else st.otps e } : AuthState).otps email =
      some ⟨dh, de, 1, ds⟩ := by simp
  have e2 : verifyOTP hashOTP
      { st with
          otps := fun e =>
            if e == email then some (⟨dh, de, 1, ds⟩ : OTPData)
            else st.otps e } t2 email w2 =
      (.error (.invalidOTP 1),
       { st with
           otps := fun e =>
             if e == email then some (⟨dh, de, 2, ds⟩ : OTPData)
             else if e == email then some (⟨dh, de, 1, ds⟩ : OTPData)
             else st.otps e }) :=
    (verifyOTP_wrong_nonfinal hashOTP
      { st with
          otps := fun e =>
            if e == email then some (⟨dh, de, 1, ds⟩ : OTPData)
            else st.otps e } t2 email w2 u ⟨dh, de, 1, ds⟩
      hu hdA he2
      (by
        show 1 + 1 < MAX_OTP_ATTEMPTS
        decide) hw2).trans rfl
  have hdB : ({ st with
      otps := fun e =>
        if e == email then some (⟨dh, de, 2, ds⟩ : OTPData)
        else if e == email then some (⟨dh, de, 1, ds⟩ : OTPData)
        else st.otps e } : AuthState).otps email =
      some ⟨dh, de, 2, ds⟩ := by simp
  have e3 : verifyOTP hashOTP
      { st with
          otps := fun e =>
            if e == email then some (⟨dh, de, 2, ds⟩ : OTPData)
            else if e == email then some (⟨dh, de, 1, ds⟩ : OTPData)
            else st.otps e } t3 email w3 =
      (.error .accountPermanentlyLocked,
       { st with
           otps := fun e =>
             if e == email then none
             else if e == email then some (⟨dh, de, 2, ds⟩ : OTPData)
             else if e == email then some (⟨dh, de, 1, ds⟩ : OTPData)
             else st.otps e
           locked := fun e => e == email || st.locked e }) :=
    (verifyOTP_wrong_final hashOTP
      { st with
          otps := fun e =>
            if e == email then some (⟨dh, de, 2, ds⟩ : OTPData)
            else if e == email then some (⟨dh, de, 1, ds⟩ : OTPData)
            else st.otps e } t3 email w3 u ⟨dh, de, 2, ds⟩
      hu hdB he3
      (by
        show 2 + 1 = MAX_OTP_ATTEMPTS
        decide) hw3).trans rfl
  rw [e1]
  dsimp only
  rw [e2]
  dsimp only
  rw [e3]
  dsimp only
  refine ⟨rfl, rfl, rfl, by simp, by simp, ?_, ?_⟩
  · rw [verifyOTP_notFound hashOTP
      { st with
          otps := fun e =>
            if e == email then none
            else if e == email then some (⟨dh, de, 2, ds⟩ : OTPData)
            else if e == email then some (⟨dh, de, 1, ds⟩ : OTPData)
            else st.otps e
          locked := fun e => e == email || st.locked e } t4 email c u hu (by simp)]
  · intro resp salt
    exact requestOTP_locked hashOTP
      { st with
          otps := fun e =>
            if e == email then none
            else if e == email then some (⟨dh, de, 2, ds⟩ : OTPData)
            else if e == email then some (⟨dh, de, 1, ds⟩ : OTPData)
            else st.otps e
          locked := fun e => e == email || st.locked e } t5 email resp salt (by simp)

/-- Witness: otp_lockout_after_three_wrong_attempts on the demo state,
with the wrong code 000000 submitted three times and the correct code
123456 as the fourth submission, all hypotheses discharged by
evaluation. -/
theorem otp_lockout_after_three_wrong_attempts_witness :
    (verifyOTP hashConcat demoAuthState 0 "a@b.c" "000000").1
      = .error (.invalidOTP 2) ∧
    (verifyOTP hashConcat
      (verifyOTP hashConcat demoAuthState 0 "a@b.c" "000000").2
      0 "a@b.c" "000000").1 = .error (.invalidOTP 1) ∧
    (verifyOTP hashConcat
      (verifyOTP hashConcat
        (verifyOTP hashConcat demoAuthState 0 "a@b.c" "000000").2
        0 "a@b.c" "000000").2
      0 "a@b.c" "000000").1 = .error .accountPermanentlyLocked ∧
    (verifyOTP hashConcat
      (verifyOTP hashConcat
        (verifyOTP hashConcat demoAuthState 0 "a@b.c" "000000").2
        0 "a@b.c" "000000").2
      0 "a@b.c" "000000").2.locked "a@b.c" = true ∧
    (verifyOTP hashConcat
      (verifyOTP hashConcat
        (verifyOTP hashConcat demoAuthState 0 "a@b.c" "000000").2
        0 "a@b.c" "000000").2
      0 "a@b.c" "000000").2.otps "a@b.c" = none ∧
    (verifyOTP hashConcat
      (verifyOTP hashConcat
        (verifyOTP hashConcat
          (verifyOTP hashConcat demoAuthState 0 "a@b.c" "000000").2
          0 "a@b.c" "000000").2
        0 "a@b.c" "000000").2
      0 "a@b.c" "123456").1 = .error .otpNotFound ∧
    (∀ resp salt, requestOTP hashConcat
      (verifyOTP hashConcat
        (verifyOTP hashConcat
          (verifyOTP hashConcat demoAuthState 0 "a@b.c" "000000").2
          0 "a@b.c" "000000").2
        0 "a@b.c" "000000").2
      0 "a@b.c" resp salt =
      (.error .accountPermanentlyLocked,
       (verifyOTP hashConcat
         (verifyOTP hashConcat
           (verifyOTP hashConcat demoAuthState 0 "a@b.c" "000000").2
           0 "a@b.c" "000000").2
         0 "a@b.c" "000000").2)) :=
  otp_lockout_after_three_wrong_attempts hashConcat demoAuthState "a@b.c"
    "000000" "000000" "000000" "123456" 0 0 0 0 0
    { id := "1", email := "a@b.c", name := "A", role := "Admin",
      invitedBy := "system", invitedAt := 0, lastLogin := 0 }
    { otpHash := hashConcat "123456" "s", expires := 1000, attempts := 0,
      salt := "s" }
    (by decide) (by decide) (by decide) (by decide) (by decide) (by decide)
    (by decide) (by decide) (by decide)

end LoadJsonData
